import Mathlib

/-!
Shallow embedding of the Wallet Memo backend (src/backend/server.js):
the core pass generation (createPass), the strip and icon asset
synthesis, and the pending-pass token store used by the two-step
Safari download flow.

Modelling conventions:
* time is in milliseconds as a Nat, injected where the code calls Date.now();
* the two random serial numbers of createPass and the random token of the
  prepare handler are injected as parameters;
* the external image decoder (split of the data URL, base64 decode and
  loadImage) is a parameter dec : String -> Option Img; a decode failure
  corresponds to the try/catch around loadImage;
* canvas geometry uses rationals; images are modelled structurally by what
  the code draws (fills, rectangles, stroked lines), not by pixel buffers;
* the object-literal lookups table[color] || table.blue are modelled by the
  own-property tables colors, logoTextColors and flatColors composed with a
  default, and additionally by lookupOr, which includes the JavaScript
  prototype chain (Object.prototype members are truthy, so the || fallback
  is not taken for keys naming them); the two agree on every key that is
  not an Object.prototype member;
* the manifest and signature are produced by the passkit-generator library
  from exactly the descriptor and buffers collected here, so the bundle is
  modelled as that descriptor plus the named buffers.
-/

set_option maxRecDepth 8000

namespace WalletMemo

/-- PASS_TOKEN_TTL = 5 * 60 * 1000 milliseconds (server.js line 26). -/
def PASS_TOKEN_TTL : Nat := 5 * 60 * 1000

/-- BUILD_NUMBER = 83 (server.js line 22). -/
def BUILD_NUMBER : Nat := 83

/-- Whitespace recognized by String.prototype.trim: the ECMA-262 WhiteSpace
and LineTerminator sets (tab, LF, VT, FF, CR, space, NBSP, Ogham space mark,
the en/em/figure/punctuation/thin/hair spaces U+2000-200A, line and
paragraph separators, narrow no-break space, medium mathematical space,
ideographic space, and the BOM). -/
def isJsWhitespace (c : Char) : Bool :=
  c == '\t' || c == '\n' || c == '\x0b' || c == '\x0c' || c == '\r' || c == ' ' ||
  c == '\u00A0' || c == '\u1680' ||
  c == '\u2000' || c == '\u2001' || c == '\u2002' || c == '\u2003' ||
  c == '\u2004' || c == '\u2005' || c == '\u2006' || c == '\u2007' ||
  c == '\u2008' || c == '\u2009' || c == '\u200A' ||
  c == '\u2028' || c == '\u2029' || c == '\u202F' || c == '\u205F' ||
  c == '\u3000' || c == '\uFEFF'

/-- Model of JavaScript String.prototype.trim: drop leading and trailing
whitespace. -/
def jsTrim (s : String) : String :=
  String.mk (((s.data.dropWhile isJsWhitespace).reverse.dropWhile isJsWhitespace).reverse)

/-- Own-property lookup of the colors object literal inside
getBackgroundColor (server.js lines 91-95). -/
def colors (c : String) : Option String :=
  if c = "blue" then some "rgb(157, 213, 238)"
  else if c = "yellow" then some "rgb(226, 208, 96)"
  else if c = "pink" then some "rgb(228, 184, 192)"
  else none

/-- getBackgroundColor (lines 90-97): colors[color] || colors.blue.  The
request's color field may be absent, hence Option String; an absent or
unknown key falls through to the blue value. -/
def getBackgroundColor (color : Option String) : String :=
  (color.bind colors).getD "rgb(157, 213, 238)"

/-- The logoTextColors object literal inside createPass (lines 112-116). -/
def logoTextColors (c : String) : Option String :=
  if c = "blue" then some "rgb(120, 175, 200)"
  else if c = "yellow" then some "rgb(190, 175, 60)"
  else if c = "pink" then some "rgb(195, 150, 160)"
  else none

/-- The flatColors object literal shared by generateStripImage
(lines 292-296), generateBackgroundImage (lines 342-346) and
generateIconImage (lines 392-396). -/
def flatColors (c : String) : Option String :=
  if c = "blue" then some "#B8E8F8"
  else if c = "yellow" then some "#F0E480"
  else if c = "pink" then some "#F0C8D0"
  else none

/-- The property names an object literal inherits from Object.prototype.
JavaScript property lookup walks the prototype chain, so table[key] for one
of these keys yields the inherited member (a function, or Object.prototype
itself for the dunder proto accessor) instead of undefined. -/
def objectPrototypeMember (k : String) : Bool :=
  k == "constructor" || k == "hasOwnProperty" || k == "isPrototypeOf" ||
  k == "propertyIsEnumerable" || k == "toLocaleString" || k == "toString" ||
  k == "valueOf" || k == "__proto__" || k == "__defineGetter__" ||
  k == "__defineSetter__" || k == "__lookupGetter__" || k == "__lookupSetter__"

/-- The possible values of the expression table[color] || table.blue under
full JavaScript semantics: a string (an own palette value, or the blue
default), or a truthy non-string member inherited from Object.prototype. -/
inductive JsProp where
  | str (s : String)
  | inherited (name : String)
deriving DecidableEq, Repr

/-- Full JavaScript evaluation of table[color] || table.blue, prototype
chain included: an own property yields its (non-empty, hence truthy) string
value; a key naming an Object.prototype member yields that truthy inherited
value, which the || keeps; only a genuinely undefined lookup falls back to
the default.  An absent color coerces to the key "undefined", which is
neither an own property nor a prototype member, so it falls back.  The
Option-valued tables above compose with getD into the same result exactly
when the key is not an Object.prototype member. -/
def lookupOr (own : String → Option String) (color : Option String)
    (dflt : String) : JsProp :=
  match color with
  | none => .str dflt
  | some c =>
    match own c with
    | some v => .str v
    | none => if objectPrototypeMember c then .inherited c else .str dflt

/-- A canvas fill style: a flat solid color or a linear gradient given by
positioned color stops (the gradient form is the one built by
createLinearGradient/addColorStop, as in generateLogoImage lines 442-452). -/
inductive Fill where
  | flat (color : String)
  | linearGradient (stops : List (ℚ × String))
deriving DecidableEq, Repr

/-- True exactly when the fill is a gradient. -/
def Fill.isGradient : Fill → Bool
  | .flat _ => false
  | .linearGradient _ => true

/-- An axis-aligned rectangle (x, y, width, height) in canvas coordinates. -/
structure Rect where
  x : ℚ
  y : ℚ
  w : ℚ
  h : ℚ
deriving DecidableEq, Repr

/-- A decoded raster image; only its pixel dimensions matter to layout. -/
structure Img where
  width : ℚ
  height : ℚ
deriving DecidableEq, Repr

/-- The strip asset as drawn by generateStripImage: the base fill painted
over baseRect, plus the placement of the optional composited drawing. -/
structure StripImage where
  width : ℚ
  height : ℚ
  baseFill : Fill
  baseRect : Rect
  overlay : Option Rect
deriving DecidableEq, Repr

/-- generateStripImage (server.js lines 285-331).  The canvas is 1125 x 432;
the base fill is the flat palette color (fallback blue) over the whole
canvas; a supplied drawing longer than 1000 characters is decoded and, on
success, composited with the contain policy (0.9 margin, centered); a
decode failure is swallowed by the try/catch and the overlay is skipped. -/
def generateStripImage (dec : String → Option Img)
    (color : Option String) (drawingDataUrl : Option String) : StripImage :=
  let width : ℚ := 1125
  let height : ℚ := 432
  let base : Fill := Fill.flat ((color.bind flatColors).getD "#B8E8F8")
  let overlay : Option Rect :=
    match drawingDataUrl with
    | none => none
    | some du =>
      if du.length > 1000 then
        match dec du with
        | none => none
        | some drawingImage =>
          let srcAspect := drawingImage.width / drawingImage.height
          if srcAspect > width / height then
            let drawWidth := width * (0.9 : ℚ)
            let drawHeight := drawWidth / srcAspect
            some ⟨(width - drawWidth) / 2, (height - drawHeight) / 2, drawWidth, drawHeight⟩
          else
            let drawHeight := height * (0.9 : ℚ)
            let drawWidth := drawHeight * srcAspect
            some ⟨(width - drawWidth) / 2, (height - drawHeight) / 2, drawWidth, drawHeight⟩
      else none
  { width := width, height := height, baseFill := base,
    baseRect := ⟨0, 0, width, height⟩, overlay := overlay }

/-- The icon asset as drawn by generateIconImage: a rounded rectangle filled
with the flat palette color plus three stroked memo lines. -/
structure IconImage where
  size : ℚ
  fill : Fill
  shape : Rect
  cornerRadius : ℚ
  strokeStyle : String
  lineWidth : ℚ
  lines : List (ℚ × ℚ × ℚ × ℚ)
deriving DecidableEq, Repr

/-- generateIconImage (server.js lines 386-424). -/
def generateIconImage (color : Option String) : IconImage :=
  let size : ℚ := 87
  { size := size
    fill := Fill.flat ((color.bind flatColors).getD "#B8E8F8")
    shape := ⟨4, 4, size - 8, size - 8⟩
    cornerRadius := 16
    strokeStyle := "rgba(0, 0, 0, 0.3)"
    lineWidth := 3
    lines := [(22, 30, 65, 30), (22, 44, 55, 44), (22, 58, 45, 58)] }

/-- A field object as used in secondaryFields and backFields. -/
structure PassField where
  key : String
  label : String
  value : String
deriving DecidableEq, Repr

/-- The pass.json descriptor: the four scalar fields the code overrides, the
two field lists it touches, and all remaining fields held opaquely. -/
structure PassJson where
  backgroundColor : String
  foregroundColor : String
  labelColor : String
  serialNumber : String
  secondaryFields : List PassField
  backFields : List PassField
  otherFields : List (String × String)
deriving DecidableEq, Repr

/-- Image buffers added to the pass with addBuffer. -/
inductive ImageBuffer where
  | strip (img : StripImage)
  | icon (img : IconImage)
deriving DecidableEq, Repr

/-- The generated pass bundle: the final descriptor plus the added buffers.
Manifest and signature are computed by passkit-generator from exactly this
content and are therefore not modelled separately. -/
structure Bundle where
  descriptor : PassJson
  buffers : List (String × ImageBuffer)
deriving DecidableEq, Repr

/-- A pass request body: the destructured { text, color, drawingDataUrl }. -/
structure PassRequest where
  text : Option String
  color : Option String
  drawingDataUrl : Option String
deriving DecidableEq, Repr

/-- pass.backFields[0].value = String(BUILD_NUMBER), guarded by
`if (pass.backFields && pass.backFields[0])` (server.js lines 138-140). -/
def setBackField0 (fields : List PassField) (v : String) : List PassField :=
  match fields with
  | [] => []
  | f :: rest => { f with value := v } :: rest

/-- Truthiness of `text && text.trim()` (server.js line 143): the text is a
present, non-empty string whose trim is also non-empty. -/
def memoTextPresent : Option String → Bool
  | none => false
  | some t => t != "" && jsTrim t != ""

/-- createPass (server.js lines 100-169), with the two random serial numbers
injected: serialDisk is written into the template descriptor (line 120) and
serialPass is assigned to the pass object afterwards (line 135).  Returns
the produced bundle together with the new content of the template's stored
pass.json, which line 123 overwrites on disk with the merged descriptor. -/
def createPass (dec : String → Option Img) (serialDisk serialPass : String)
    (req : PassRequest) (disk : PassJson) : Bundle × PassJson :=
  let bgColor := getBackgroundColor req.color
  let fgColor := (req.color.bind logoTextColors).getD "rgb(120, 175, 200)"
  let merged : PassJson :=
    { disk with
      backgroundColor := bgColor
      foregroundColor := fgColor
      labelColor := fgColor
      serialNumber := serialDisk }
  let descriptor : PassJson :=
    { merged with
      serialNumber := serialPass
      backFields := setBackField0 merged.backFields (toString BUILD_NUMBER)
      secondaryFields :=
        if memoTextPresent req.text then [⟨"memo", "Note", req.text.getD ""⟩]
        else merged.secondaryFields }
  let stripBuffer := generateStripImage dec req.color req.drawingDataUrl
  let iconBuffer := generateIconImage req.color
  (⟨descriptor,
    [("strip.png", .strip stripBuffer),
     ("strip@2x.png", .strip stripBuffer),
     ("strip@3x.png", .strip stripBuffer),
     ("icon.png", .icon iconBuffer),
     ("icon@2x.png", .icon iconBuffer)]⟩,
   merged)

/-- An entry of the pendingPasses map: the spread request fields plus
createdAt (server.js lines 201-206). -/
structure PendingEntry where
  text : Option String
  color : Option String
  drawingDataUrl : Option String
  createdAt : Nat
deriving DecidableEq, Repr

/-- The pendingPasses Map, as an insertion-ordered association list. -/
abbrev PendingStore := List (String × PendingEntry)

/-- Map.prototype.get. -/
def storeGet (s : PendingStore) (k : String) : Option PendingEntry :=
  (s.find? (fun p => p.1 == k)).map (fun p => p.2)

/-- Map.prototype.set: replace in place when the key is present, else
append at the end. -/
def storeSet (s : PendingStore) (k : String) (v : PendingEntry) : PendingStore :=
  if s.any (fun p => p.1 == k) then
    s.map (fun p => if p.1 == k then (k, v) else p)
  else s ++ [(k, v)]

/-- Map.prototype.delete. -/
def storeDelete (s : PendingStore) (k : String) : PendingStore :=
  s.filter (fun p => !(p.1 == k))

/-- The /api/prepare-pass handler (server.js lines 196-221), with the token
and the current time injected: stores (request fields, now) under the token,
then sweeps every entry whose age exceeds PASS_TOKEN_TTL (an entry is
deleted when now - createdAt > TTL, so the filter keeps the complement). -/
def preparePass (req : PassRequest) (token : String) (now : Nat)
    (s : PendingStore) : PendingStore :=
  (storeSet s token ⟨req.text, req.color, req.drawingDataUrl, now⟩).filter
    (fun p => !(decide (now - p.2.createdAt > PASS_TOKEN_TTL)))

/-- The outcome of the /api/download-pass/:token handler: the 404 not-found
response or the generated bundle. -/
inductive DownloadResult where
  | notFound
  | ok (bundle : Bundle)
deriving DecidableEq, Repr

/-- The /api/download-pass/:token handler (server.js lines 223-249): the
token is looked up; a missing token yields the 404 response; otherwise the
entry is deleted first (line 231) and createPass then runs on the stored
request fields.  The handler consults no clock: entry age is never checked
here. -/
def downloadPass (dec : String → Option Img) (serialDisk serialPass : String)
    (token : String) (s : PendingStore) (disk : PassJson) :
    DownloadResult × PendingStore × PassJson :=
  match storeGet s token with
  | none => (.notFound, s, disk)
  | some passData =>
    let result := createPass dec serialDisk serialPass
      ⟨passData.text, passData.color, passData.drawingDataUrl⟩ disk
    (.ok result.1, storeDelete s token, result.2)

/-- A decoder that fails on every payload. -/
def decNone : String → Option Img := fun _ => none

/-- A decoder that decodes every payload as a 100 x 100 image. -/
def decSquare : String → Option Img := fun _ => some ⟨100, 100⟩

/-- A concrete template descriptor used in concrete evaluations. -/
def tmpl0 : PassJson :=
  { backgroundColor := "rgb(255, 255, 255)"
    foregroundColor := "rgb(0, 0, 0)"
    labelColor := "rgb(0, 0, 0)"
    serialNumber := "template-serial"
    secondaryFields := []
    backFields := [⟨"build", "Build", "0"⟩]
    otherFields := [("description", "Wallet Memo")] }

/-- A concrete request. -/
def req0 : PassRequest := ⟨some "Buy milk", some "blue", none⟩

/-- A data URL long enough to pass the 1000-character threshold. -/
def bigDataUrl : String := String.mk (List.replicate 1001 'a')

/-- A stored entry created at time 0. -/
def staleEntry : PendingEntry := ⟨some "hi", some "blue", none, 0⟩

/-- A store holding only staleEntry under token "t". -/
def staleStore : PendingStore := [("t", staleEntry)]

/-! ### Helper lemmas about the association-list store -/

lemma find?_filter_none {α : Type} (p q : α → Bool) (l : List α)
    (h : l.find? p = none) : (l.filter q).find? p = none := by
  rw [List.find?_eq_none] at h ⊢
  intro a ha
  exact h a (List.mem_filter.mp ha).1

lemma find?_append_of_none {α : Type} (p : α → Bool) (l₁ l₂ : List α)
    (h : l₁.find? p = none) : (l₁ ++ l₂).find? p = l₂.find? p := by
  induction l₁ with
  | nil => rfl
  | cons a t ih =>
    have hall := List.find?_eq_none.mp h
    have ha : ¬ p a = true := hall a (by simp)
    have ht : t.find? p = none :=
      List.find?_eq_none.mpr (fun x hx => hall x (by simp [hx]))
    rw [List.cons_append, List.find?_cons_of_neg _ ha]
    exact ih ht

lemma storeGet_delete (s : PendingStore) (k : String) :
    storeGet (storeDelete s k) k = none := by
  unfold storeGet storeDelete
  rw [Option.map_eq_none', List.find?_eq_none]
  intro a ha
  have h2 := (List.mem_filter.mp ha).2
  simp only [Bool.not_eq_true'] at h2
  simp [h2]

lemma storeGet_prepare_fresh (req : PassRequest) (token : String) (now : Nat)
    (s : PendingStore) (h : storeGet s token = none) :
    storeGet (preparePass req token now s)
      token = some ⟨req.text, req.color, req.drawingDataUrl, now⟩ := by
  have hfind : s.find? (fun p => p.1 == token) = none := by
    unfold storeGet at h
    exact Option.map_eq_none'.mp h
  have hany : (s.any (fun p => p.1 == token)) = false := by
    rw [List.any_eq_false]
    exact List.find?_eq_none.mp hfind
  unfold preparePass storeSet
  rw [if_neg (by simp [hany])]
  rw [List.filter_append]
  have hkeep :
      List.filter (fun p => !(decide (now - p.2.createdAt > PASS_TOKEN_TTL)))
        ([(token, (⟨req.text, req.color, req.drawingDataUrl, now⟩ : PendingEntry))])
      = [(token, (⟨req.text, req.color, req.drawingDataUrl, now⟩ : PendingEntry))] := by
    simp
  rw [hkeep]
  unfold storeGet
  rw [find?_append_of_none _ _ _ (find?_filter_none _ _ _ hfind)]
  simp [List.find?]

/-! ### Claim theorems -/

/-- C1: the claim says each generate call leaves the shared template's
stored pass.json unchanged.  In the code the opposite holds: createPass
writes the merged descriptor back to the template's stored copy, so after
any call in which the fresh serial number differs from the stored one (it
always does, being fresh), the stored template has changed. -/
theorem createPass_mutates_template (dec : String → Option Img)
    (serialDisk serialPass : String) (req : PassRequest) (disk : PassJson)
    (h : serialDisk ≠ disk.serialNumber) :
    (createPass dec serialDisk serialPass req disk).2 ≠ disk := by
  intro heq
  have hser : (createPass dec serialDisk serialPass req disk).2.serialNumber
      = disk.serialNumber := by rw [heq]
  simp only [createPass] at hser
  exact h hser

/-- C1 witness: a concrete call on the concrete template rewrites the
stored descriptor. -/
theorem createPass_mutates_template_witness :
    ("memo-1-abc" : String) ≠ tmpl0.serialNumber
    ∧ (createPass decNone "memo-1-abc" "memo-2-def" req0 tmpl0).2 ≠ tmpl0 :=
  ⟨by decide,
   createPass_mutates_template decNone "memo-1-abc" "memo-2-def" req0 tmpl0 (by decide)⟩

/-- C2 counterexample: an entry stored at time 0 and retrieved more than the
TTL later (no put having swept it) is still served: the download does not
fail with an expired error, it returns the bundle. -/
theorem stale_token_download_succeeds :
    storeGet staleStore "t" = some staleEntry
    ∧ 300001 - staleEntry.createdAt > PASS_TOKEN_TTL
    ∧ (downloadPass decNone "s1" "s2" "t" staleStore tmpl0).1
        = DownloadResult.ok
            (createPass decNone "s1" "s2" ⟨some "hi", some "blue", none⟩ tmpl0).1 :=
  ⟨rfl, by decide, rfl⟩

/-- C2 (amended): every put sweeps away all stored entries strictly older
than the TTL; the retrieve handler itself performs no age check: any token
still present in the store is retrieved successfully regardless of how long
ago it was stored, and only an absent token fails (with the single
not-found response; there is no separate expired error). -/
theorem put_sweeps_and_download_ignores_age :
    (∀ req token now s, ∀ p ∈ preparePass req token now s,
        now - p.2.createdAt ≤ PASS_TOKEN_TTL)
    ∧ (∀ dec sd sp token s disk e, storeGet s token = some e →
        (downloadPass dec sd sp token s disk).1
          = DownloadResult.ok
              (createPass dec sd sp ⟨e.text, e.color, e.drawingDataUrl⟩ disk).1) := by
  constructor
  · intro req token now s p hp
    have h2 := (List.mem_filter.mp hp).2
    simp only [Bool.not_eq_true', decide_eq_false_iff_not, Nat.not_lt] at h2
    exact h2
  · intro dec sd sp token s disk e he
    unfold downloadPass
    rw [he]

/-- C2 witness: the sweep bound holds for the freshly inserted entry of a
concrete put, and a concrete present token downloads successfully. -/
theorem put_sweeps_and_download_ignores_age_witness :
    (0 : Nat) - 0 ≤ PASS_TOKEN_TTL
    ∧ (downloadPass decNone "s1" "s2" "t" staleStore tmpl0).1
        = DownloadResult.ok
            (createPass decNone "s1" "s2"
              ⟨staleEntry.text, staleEntry.color, staleEntry.drawingDataUrl⟩ tmpl0).1 :=
  ⟨put_sweeps_and_download_ignores_age.1 req0 "t" 0 []
      ("t", (⟨some "Buy milk", some "blue", none, 0⟩ : PendingEntry)) (by decide),
   put_sweeps_and_download_ignores_age.2 decNone "s1" "s2" "t" staleStore tmpl0
      staleEntry rfl⟩

/-- C3: prepare followed by exactly one retrieve of a fresh token runs the
same pass-creation computation on the stored request that generate would
run, and the resulting bundle is identical to the generate bundle except
for the serial number field. -/
theorem prepare_retrieve_refines_generate (dec : String → Option Img)
    (sd sp sd2 sp2 token : String) (now : Nat) (req : PassRequest)
    (s : PendingStore) (disk : PassJson) (h : storeGet s token = none) :
    (downloadPass dec sd2 sp2 token (preparePass req token now s) disk).1
      = DownloadResult.ok
          ⟨{ (createPass dec sd sp req disk).1.descriptor with serialNumber := sp2 },
            (createPass dec sd sp req disk).1.buffers⟩ := by
  have hget := storeGet_prepare_fresh req token now s h
  unfold downloadPass
  rw [hget]
  rfl

/-- C3 witness: the equivalence evaluated on a concrete request, token and
template. -/
theorem prepare_retrieve_refines_generate_witness :
    (downloadPass decNone "sd2" "sp2" "t" (preparePass req0 "t" 0 []) tmpl0).1
      = DownloadResult.ok
          ⟨{ (createPass decNone "sd" "sp" req0 tmpl0).1.descriptor with serialNumber := "sp2" },
            (createPass decNone "sd" "sp" req0 tmpl0).1.buffers⟩ :=
  prepare_retrieve_refines_generate decNone "sd" "sp" "sd2" "sp2" "t" 0 req0 [] tmpl0 rfl

/-- C4 counterexample: for the blue request the strip asset's base fill is
the flat solid color #B8E8F8, not a multi-stop gradient. -/
theorem strip_base_fill_not_gradient :
    (generateStripImage decNone (some "blue") none).baseFill = Fill.flat "#B8E8F8"
    ∧ (generateStripImage decNone (some "blue") none).baseFill.isGradient = false :=
  ⟨rfl, rfl⟩

/-- C4 (amended): for every request and color key the strip asset's base
fill is the flat palette color (fallback blue), never a gradient, painted
over the full 1125 x 432 canvas. -/
theorem strip_base_fill_flat (dec : String → Option Img)
    (color : Option String) (du : Option String) :
    (generateStripImage dec color du).baseFill
        = Fill.flat ((color.bind flatColors).getD "#B8E8F8")
    ∧ (generateStripImage dec color du).baseFill.isGradient = false
    ∧ (generateStripImage dec color du).baseRect = ⟨0, 0, 1125, 432⟩
    ∧ (generateStripImage dec color du).width = 1125
    ∧ (generateStripImage dec color du).height = 432 :=
  ⟨rfl, rfl, rfl, rfl, rfl⟩

/-- The exact overlay rectangle generateStripImage computes for a decoded
over-threshold drawing. -/
lemma strip_overlay_eq (dec : String → Option Img) (color : Option String)
    (du : String) (img : Img) (hlen : du.length > 1000) (hdec : dec du = some img) :
    (generateStripImage dec color (some du)).overlay =
      (if img.width / img.height > (1125 : ℚ) / 432 then
        some ⟨(1125 - 1125 * (0.9 : ℚ)) / 2,
              (432 - 1125 * (0.9 : ℚ) / (img.width / img.height)) / 2,
              1125 * (0.9 : ℚ), 1125 * (0.9 : ℚ) / (img.width / img.height)⟩
      else
        some ⟨(1125 - 432 * (0.9 : ℚ) * (img.width / img.height)) / 2,
              (432 - 432 * (0.9 : ℚ)) / 2,
              432 * (0.9 : ℚ) * (img.width / img.height), 432 * (0.9 : ℚ)⟩) := by
  simp [generateStripImage, hlen, hdec]

/-- C5: the contain scaling law of the strip compositor.  With drawing
aspect ratio r and canvas aspect ratio 1125/432: when r exceeds the canvas
ratio the drawn width is 0.9 of the canvas width and the height is width/r;
otherwise the drawn height is 0.9 of the canvas height and the width is
height*r; the drawing is centered on both axes (equal left/right and
top/bottom margins). -/
theorem strip_contain_scaling (dec : String → Option Img) (color : Option String)
    (du : String) (img : Img) (hlen : du.length > 1000) (hdec : dec du = some img)
    (hw : 0 < img.width) (hh : 0 < img.height) :
    ∃ r : Rect,
      (generateStripImage dec color (some du)).overlay = some r
      ∧ (img.width / img.height > (1125 : ℚ) / 432 →
          r.w = 1125 * (0.9 : ℚ) ∧ r.h = r.w / (img.width / img.height))
      ∧ (¬ img.width / img.height > (1125 : ℚ) / 432 →
          r.h = 432 * (0.9 : ℚ) ∧ r.w = r.h * (img.width / img.height))
      ∧ r.x = 1125 - (r.x + r.w)
      ∧ r.y = 432 - (r.y + r.h) := by
  have hov := strip_overlay_eq dec color du img hlen hdec
  by_cases hc : img.width / img.height > (1125 : ℚ) / 432
  · rw [if_pos hc] at hov
    refine ⟨_, hov, fun _ => ⟨rfl, rfl⟩, fun hcon => absurd hc hcon, ?_, ?_⟩
    · show (1125 - 1125 * (0.9 : ℚ)) / 2
        = 1125 - ((1125 - 1125 * (0.9 : ℚ)) / 2 + 1125 * (0.9 : ℚ))
      ring
    · show (432 - 1125 * (0.9 : ℚ) / (img.width / img.height)) / 2
        = 432 - ((432 - 1125 * (0.9 : ℚ) / (img.width / img.height)) / 2
            + 1125 * (0.9 : ℚ) / (img.width / img.height))
      ring
  · rw [if_neg hc] at hov
    refine ⟨_, hov, fun hcon => absurd hcon hc, fun _ => ⟨rfl, rfl⟩, ?_, ?_⟩
    · show (1125 - 432 * (0.9 : ℚ) * (img.width / img.height)) / 2
        = 1125 - ((1125 - 432 * (0.9 : ℚ) * (img.width / img.height)) / 2
            + 432 * (0.9 : ℚ) * (img.width / img.height))
      ring
    · show (432 - 432 * (0.9 : ℚ)) / 2
        = 432 - ((432 - 432 * (0.9 : ℚ)) / 2 + 432 * (0.9 : ℚ))
      ring

/-- C5 witness: a concrete square 100 x 100 drawing on the strip canvas. -/
theorem strip_contain_scaling_witness :
    ∃ r : Rect,
      (generateStripImage decSquare (some "blue") (some bigDataUrl)).overlay = some r
      ∧ ((100 : ℚ) / 100 > (1125 : ℚ) / 432 →
          r.w = 1125 * (0.9 : ℚ) ∧ r.h = r.w / ((100 : ℚ) / 100))
      ∧ (¬ (100 : ℚ) / 100 > (1125 : ℚ) / 432 →
          r.h = 432 * (0.9 : ℚ) ∧ r.w = r.h * ((100 : ℚ) / 100))
      ∧ r.x = 1125 - (r.x + r.w)
      ∧ r.y = 432 - (r.y + r.h) :=
  strip_contain_scaling decSquare (some "blue") bigDataUrl ⟨100, 100⟩
    (by simp [bigDataUrl, String.length]) rfl (by norm_num) (by norm_num)

/-- C6: after any download of a token the token is absent from the store
(the handler deletes the entry before generating the bundle), so a second
download with the same token always yields the not-found response. -/
theorem second_download_not_found (dec dec2 : String → Option Img)
    (sd sp sd2 sp2 token : String) (s : PendingStore) (disk disk2 : PassJson) :
    storeGet (downloadPass dec sd sp token s disk).2.1 token = none
    ∧ (downloadPass dec2 sd2 sp2 token
        (downloadPass dec sd sp token s disk).2.1 disk2).1
        = DownloadResult.notFound := by
  cases hget : storeGet s token with
  | none =>
    have h21 : (downloadPass dec sd sp token s disk).2.1 = s := by
      unfold downloadPass; rw [hget]
    rw [h21]
    exact ⟨hget, by unfold downloadPass; rw [hget]⟩
  | some e =>
    have h21 : (downloadPass dec sd sp token s disk).2.1 = storeDelete s token := by
      unfold downloadPass; rw [hget]
    rw [h21]
    exact ⟨storeGet_delete s token,
      by unfold downloadPass; rw [storeGet_delete]⟩

/-- C7 counterexample: the text " " is non-empty, yet the memo secondary
field is not set; the descriptor keeps the template's secondaryFields. -/
theorem whitespace_text_not_set :
    (" " : String) ≠ ""
    ∧ (createPass decNone "sd" "sp" ⟨some " ", some "blue", none⟩ tmpl0).1.descriptor.secondaryFields
        = tmpl0.secondaryFields := by
  exact ⟨by decide, by decide⟩

/-- C7 (amended): the memo secondary field is set to request.text exactly
when the text is present and contains a character outside the JavaScript
whitespace set (its trim is non-empty); otherwise secondaryFields pass
through unchanged from the template descriptor.  In particular a text
consisting of one ideographic space U+3000 does not set the field. -/
theorem secondary_fields_setting (dec : String → Option Img)
    (sd sp : String) (req : PassRequest) (disk : PassJson) :
    ((createPass dec sd sp req disk).1.descriptor.secondaryFields
        = if memoTextPresent req.text then [⟨"memo", "Note", req.text.getD ""⟩]
          else disk.secondaryFields)
    ∧ (∀ t : String, memoTextPresent (some t) = (jsTrim t != ""))
    ∧ memoTextPresent none = false
    ∧ memoTextPresent (some "\u3000") = false := by
  refine ⟨rfl, ?_, rfl, by decide⟩
  intro t
  by_cases ht : t = ""
  · subst ht; rfl
  · simp [memoTextPresent, ht]

/-- C8: an over-threshold drawing that fails to decode degrades gracefully:
the overlay is skipped, the base fill is kept, and createPass still yields
the complete bundle with all five image buffers. -/
theorem decode_failure_degrades (dec : String → Option Img)
    (sd sp : String) (text color : Option String) (du : String) (disk : PassJson)
    (hlen : du.length > 1000) (hdec : dec du = none) :
    (generateStripImage dec color (some du)).overlay = none
    ∧ (generateStripImage dec color (some du)).baseFill
        = Fill.flat ((color.bind flatColors).getD "#B8E8F8")
    ∧ ((createPass dec sd sp ⟨text, color, some du⟩ disk).1.buffers.map Prod.fst)
        = ["strip.png", "strip@2x.png", "strip@3x.png", "icon.png", "icon@2x.png"] := by
  refine ⟨?_, rfl, rfl⟩
  simp [generateStripImage, hlen, hdec]

/-- C8 witness: a concrete long payload the decoder rejects. -/
theorem decode_failure_degrades_witness :
    (generateStripImage decNone (some "blue") (some bigDataUrl)).overlay = none
    ∧ (generateStripImage decNone (some "blue") (some bigDataUrl)).baseFill
        = Fill.flat "#B8E8F8"
    ∧ ((createPass decNone "sd" "sp" ⟨some "Buy milk", some "blue", some bigDataUrl⟩
          tmpl0).1.buffers.map Prod.fst)
        = ["strip.png", "strip@2x.png", "strip@3x.png", "icon.png", "icon@2x.png"] :=
  decode_failure_degrades decNone "sd" "sp" (some "Buy milk") (some "blue") bigDataUrl
    tmpl0 (by simp [bigDataUrl, String.length]) rfl

/-- C9: with no drawing, or with a drawing at or below the 1000-character
threshold, nothing is composited: the strip asset is the base fill only. -/
theorem small_drawing_no_overlay (dec : String → Option Img)
    (color : Option String) (du : Option String)
    (h : ∀ s, du = some s → s.length ≤ 1000) :
    (generateStripImage dec color du).overlay = none
    ∧ (generateStripImage dec color du).baseFill
        = Fill.flat ((color.bind flatColors).getD "#B8E8F8") := by
  refine ⟨?_, rfl⟩
  cases du with
  | none => rfl
  | some s =>
    have hs := h s rfl
    simp [generateStripImage, Nat.not_lt.mpr hs]

/-- C9 witness: a concrete three-character drawing payload is not
composited. -/
theorem small_drawing_no_overlay_witness :
    (generateStripImage decNone (some "pink") (some "abc")).overlay = none
    ∧ (generateStripImage decNone (some "pink") (some "abc")).baseFill
        = Fill.flat "#F0C8D0" :=
  small_drawing_no_overlay decNone (some "pink") (some "abc")
    (fun s hs => by cases hs; decide)

/-- C10 counterexample: "toString" is not one of the known palette keys,
yet under full JavaScript property lookup every table[color] || table.blue
expression evaluates to the truthy member inherited from Object.prototype,
not to any of the blue palette strings: the fallback is not taken. -/
theorem proto_key_no_blue_fallback :
    objectPrototypeMember "toString" = true
    ∧ ("toString" : String) ≠ "blue"
    ∧ ("toString" : String) ≠ "yellow"
    ∧ ("toString" : String) ≠ "pink"
    ∧ lookupOr colors (some "toString") "rgb(157, 213, 238)"
        = JsProp.inherited "toString"
    ∧ lookupOr logoTextColors (some "toString") "rgb(120, 175, 200)"
        = JsProp.inherited "toString"
    ∧ lookupOr flatColors (some "toString") "#B8E8F8"
        = JsProp.inherited "toString"
    ∧ JsProp.inherited "toString" ≠ JsProp.str "rgb(157, 213, 238)"
    ∧ JsProp.inherited "toString" ≠ JsProp.str "rgb(120, 175, 200)"
    ∧ JsProp.inherited "toString" ≠ JsProp.str "#B8E8F8" := by
  refine ⟨rfl, by decide, by decide, by decide, by decide, by decide, by decide,
    by decide, by decide, by decide⟩

/-- C10 (amended): for a color key that is absent, or is neither a palette
key nor the name of a member inherited from Object.prototype, the lookup
table[color] || table.blue genuinely falls back (the prototype-aware lookup
agrees with the own-property tables there), and every color-dependent
output (descriptor background, foreground and label colors, strip base
fill, icon fill) uses the blue palette, generation still yielding the full
bundle. -/
theorem unknown_color_blue_fallback (dec : String → Option Img)
    (sd sp : String) (text du : Option String) (disk : PassJson)
    (color : Option String)
    (h : ∀ c, color = some c →
      objectPrototypeMember c = false ∧ c ≠ "blue" ∧ c ≠ "yellow" ∧ c ≠ "pink") :
    lookupOr colors color "rgb(157, 213, 238)"
        = JsProp.str (getBackgroundColor color)
    ∧ lookupOr logoTextColors color "rgb(120, 175, 200)"
        = JsProp.str ((color.bind logoTextColors).getD "rgb(120, 175, 200)")
    ∧ lookupOr flatColors color "#B8E8F8"
        = JsProp.str ((color.bind flatColors).getD "#B8E8F8")
    ∧ getBackgroundColor color = "rgb(157, 213, 238)"
    ∧ (createPass dec sd sp ⟨text, color, du⟩ disk).1.descriptor.backgroundColor
        = "rgb(157, 213, 238)"
    ∧ (createPass dec sd sp ⟨text, color, du⟩ disk).1.descriptor.foregroundColor
        = "rgb(120, 175, 200)"
    ∧ (createPass dec sd sp ⟨text, color, du⟩ disk).1.descriptor.labelColor
        = "rgb(120, 175, 200)"
    ∧ (generateStripImage dec color du).baseFill = Fill.flat "#B8E8F8"
    ∧ (generateIconImage color).fill = Fill.flat "#B8E8F8"
    ∧ ((createPass dec sd sp ⟨text, color, du⟩ disk).1.buffers.map Prod.fst)
        = ["strip.png", "strip@2x.png", "strip@3x.png", "icon.png", "icon@2x.png"] := by
  have hc : color.bind colors = none := by
    cases color with
    | none => rfl
    | some c =>
      have hb := h c rfl
      simp [colors, hb.2.1, hb.2.2.1, hb.2.2.2]
  have hl : color.bind logoTextColors = none := by
    cases color with
    | none => rfl
    | some c =>
      have hb := h c rfl
      simp [logoTextColors, hb.2.1, hb.2.2.1, hb.2.2.2]
  have hf : color.bind flatColors = none := by
    cases color with
    | none => rfl
    | some c =>
      have hb := h c rfl
      simp [flatColors, hb.2.1, hb.2.2.1, hb.2.2.2]
  have hlk : ∀ own : String → Option String, ∀ dflt : String,
      color.bind own = none → lookupOr own color dflt = JsProp.str dflt := by
    intro own dflt hbind
    cases color with
    | none => rfl
    | some c =>
      have hb := h c rfl
      have hown : own c = none := by simpa using hbind
      simp [lookupOr, hown, hb.1]
  refine ⟨?_, ?_, ?_, ?_, ?_, ?_, ?_, ?_, ?_, rfl⟩
  · rw [hlk colors _ hc]
    simp [getBackgroundColor, hc]
  · rw [hlk logoTextColors _ hl]
    simp [hl]
  · rw [hlk flatColors _ hf]
    simp [hf]
  · simp [getBackgroundColor, hc]
  · simp [createPass, getBackgroundColor, hc]
  · simp [createPass, hl]
  · simp [createPass, hl]
  · simp [generateStripImage, hf]
  · simp [generateIconImage, hf]

/-- C10 witness: the unknown key "teal" is neither a palette key nor an
Object.prototype member, and falls back to the blue palette everywhere. -/
theorem unknown_color_blue_fallback_witness :
    lookupOr colors (some "teal") "rgb(157, 213, 238)"
        = JsProp.str "rgb(157, 213, 238)"
    ∧ lookupOr logoTextColors (some "teal") "rgb(120, 175, 200)"
        = JsProp.str "rgb(120, 175, 200)"
    ∧ lookupOr flatColors (some "teal") "#B8E8F8" = JsProp.str "#B8E8F8"
    ∧ getBackgroundColor (some "teal") = "rgb(157, 213, 238)"
    ∧ (createPass decNone "sd" "sp" ⟨some "Buy milk", some "teal", none⟩
          tmpl0).1.descriptor.backgroundColor = "rgb(157, 213, 238)"
    ∧ (createPass decNone "sd" "sp" ⟨some "Buy milk", some "teal", none⟩
          tmpl0).1.descriptor.foregroundColor = "rgb(120, 175, 200)"
    ∧ (createPass decNone "sd" "sp" ⟨some "Buy milk", some "teal", none⟩
          tmpl0).1.descriptor.labelColor = "rgb(120, 175, 200)"
    ∧ (generateStripImage decNone (some "teal") none).baseFill = Fill.flat "#B8E8F8"
    ∧ (generateIconImage (some "teal")).fill = Fill.flat "#B8E8F8"
    ∧ ((createPass decNone "sd" "sp" ⟨some "Buy milk", some "teal", none⟩
          tmpl0).1.buffers.map Prod.fst)
        = ["strip.png", "strip@2x.png", "strip@3x.png", "icon.png", "icon@2x.png"] :=
  unknown_color_blue_fallback decNone "sd" "sp" (some "Buy milk") none tmpl0
    (some "teal")
    (fun c hc => by injection hc with h2; subst h2; decide)

end WalletMemo
